import Mathlib

/-!
Verification of the s3-consistency polling framework.

The development shallowly embeds the core of the repository:
the probe loop `BaseWaiterStrategy.run_single_test` and its helper
`check_configuration_match` (src/waiter_strategies/base_waiter.py),
the delay-injecting simulator (src/waiter_strategies/simulated_waiter.py),
the Adaptive / Hybrid / Baseline strategies
(src/waiter_strategies/strategy_adaptive.py, strategy_hybrid.py,
strategy_baseline.py), the coverage analysis
(`_display_coverage_analysis` in base_waiter.py), the sequential
control-plane poller `poll_until_match` (src/test_s3_consistency.py)
and the concurrent racer's poller `smart_poll_until_match`
(src/verification/test/test_s3_consistency_concurrent).

Wall-clock time is modelled by an explicit elapsed-time counter:
sleeps advance the clock by the requested interval and remote calls
take zero time (the zero-overhead timing model).  In this model every
elapsed time is a whole number of seconds (every polling interval,
timeout and simulated delay in the repository and in the claims is an
integer), so the loop clocks are carried in ℤ; the purely arithmetic
strategy functions are additionally stated over ℚ (`calculate_next_interval`)
and ℝ (the adaptive timeout) where the claims quantify over arbitrary
real-valued times.  Remote responses are supplied by explicit oracles
(stateful check functions or traces), so every run is a pure
computation.
-/

/-- A lifecycle rule as used by the repository: the base waiter compares
only `ID` and `Status`; the sequential test additionally varies
`Expiration.Days`, which we keep so that distinct configurations are
distinguishable under full (JSON) equality. -/
structure Rule where
  id : String
  status : String
  days : ℕ
deriving DecidableEq

/-- A lifecycle configuration: the dict with key Rules. -/
structure Lifecycle where
  rules : List Rule
deriving DecidableEq

/-- One entry of `polling_history` in `run_single_test`
(`attempt`, `elapsed_at_check`, `matched`; the `get_duration` field is
identically zero in the zero-overhead timing model and is omitted). -/
structure PollingAttempt where
  attempt : ℕ
  elapsed_at_check : ℤ
  matched : Bool
deriving DecidableEq

/-- The result dict built by `BaseWaiterStrategy.run_single_test`.
Python returns one of three dict shapes (PUT failure / timeout /
success); a missing key is `none`.  The wall-clock `timestamp` field is
not modelled. -/
structure TestResult where
  test_id : ℕ
  success : Bool
  error : Option String
  put_duration : Option ℤ
  propagation_time : Option ℤ
  check_count : Option ℕ
  api_calls : Option ℕ
  polling_history : Option (List PollingAttempt)
deriving DecidableEq

/-- Outcome of one `get_bucket_lifecycle_configuration` call as seen by
`BaseWaiterStrategy.check_configuration_match`. -/
inductive GetLifecycleOutcome where
  | ok (rules : List Rule)
  | noSuchLifecycleConfiguration
  | otherError (msg : String)
deriving DecidableEq

/-- The rule comparison in `check_configuration_match`: equal length,
then pairwise equal `ID` and `Status`. -/
def rulesMatch (current expected : List Rule) : Bool :=
  decide (current.length = expected.length) &&
    (current.zip expected).all (fun cr => decide (cr.1.id = cr.2.id) && decide (cr.1.status = cr.2.status))

/-- `BaseWaiterStrategy.check_configuration_match`:
a successful GET compares the rules; `NoSuchLifecycleConfiguration`
returns `False`; ANY other exception is caught, printed and also
returns `False` (base_waiter.py lines 111-115). -/
def check_configuration_match (resp : GetLifecycleOutcome) (expected : List Rule) : Bool :=
  match resp with
  | .ok rules => rulesMatch rules expected
  | .noSuchLifecycleConfiguration => false
  | .otherError _ => false

/-- The two strategy operations used by the probe loop
(`calculate_next_interval` and `should_timeout`). -/
structure StrategySpec where
  next : ℤ → ℕ → ℤ
  timeout : ℤ → ℕ → Bool

/-- The polling phase of `BaseWaiterStrategy.run_single_test`
(base_waiter.py lines 148-207).  `check` is a stateful oracle for
`check_configuration_match` — it receives its private state and the
elapsed time of the call and returns the match verdict together with
the new state.  `fuel` bounds the recursion; `none` means the loop did
not terminate within `fuel` iterations (the Python loop is unbounded). -/
def pollLoop {σ : Type} (S : StrategySpec) (check : σ → ℤ → Bool × σ)
    (test_id : ℕ) (put_duration : ℤ) :
    ℕ → ℤ → ℕ → ℕ → List PollingAttempt → σ → Option TestResult
  | 0, _, _, _, _, _ => none
  | fuel + 1, elapsed, check_count, api_calls, history, s =>
    if S.timeout elapsed check_count then
      some { test_id := test_id, success := false, error := some "Timeout",
             put_duration := some put_duration, propagation_time := some elapsed,
             check_count := some check_count, api_calls := some api_calls,
             polling_history := some history }
    else
      let elapsed2 := elapsed + S.next elapsed check_count
      let cc := check_count + 1
      let ac := api_calls + 1
      let m := (check s elapsed2).1
      let history2 := history ++ [{ attempt := cc, elapsed_at_check := elapsed2, matched := m }]
      if m then
        some { test_id := test_id, success := true, error := none,
               put_duration := some put_duration, propagation_time := some elapsed2,
               check_count := some cc, api_calls := some ac,
               polling_history := some history2 }
      else
        pollLoop S check test_id put_duration fuel elapsed2 cc ac history2 (check s elapsed2).2

/-- `BaseWaiterStrategy.run_single_test` (base_waiter.py lines 117-207).
The PUT outcome is an oracle: `.error e` models
`put_bucket_lifecycle_configuration` raising (returning the dict of
lines 141-146), `.ok d` models an acknowledged PUT of duration `d`. -/
def run_single_test {σ : Type} (S : StrategySpec) (check : σ → ℤ → Bool × σ)
    (putOutcome : Except String ℤ) (test_id : ℕ) (fuel : ℕ) (s0 : σ) : Option TestResult :=
  match putOutcome with
  | .error e =>
      some { test_id := test_id, success := false, error := some ("PUT failed: " ++ e),
             put_duration := none, propagation_time := none,
             check_count := none, api_calls := none, polling_history := none }
  | .ok put_duration => pollLoop S check test_id put_duration fuel 0 0 1 [] s0

/-- `BaselineStrategy` and `ExtendedTimeoutStrategy`: a fixed polling
interval and a fixed timeout (strategy_baseline.py, strategy_extended.py). -/
def fixedStrategy (polling_interval timeout_seconds : ℤ) : StrategySpec :=
  { next := fun _ _ => polling_interval,
    timeout := fun elapsed _ => decide (elapsed ≥ timeout_seconds) }

/-- The Baseline configuration: interval 3 s, timeout 180 s. -/
def BaselineStrategy : StrategySpec := fixedStrategy 3 180

/-- `SimulatedBaseWaiterStrategy.check_configuration_match`
(simulated_waiter.py lines 58-79).  The state is the recorded
`_propagation_start` (in probe-clock terms), set on the first check.
Until `elapsed - start ≥ delay` every check reports `False`; afterwards
the real comparison (`realCheck`) is consulted.  On the very first
check the simulator's own elapsed time is `0`. -/
def simCheck (delay : ℤ) (realCheck : Bool) : Option ℤ → ℤ → Bool × Option ℤ
  | none, e => (if (0 : ℤ) ≥ delay then realCheck else false, some e)
  | some t0, e => (if e - t0 ≥ delay then realCheck else false, some t0)

/-- A check oracle driven by a finite trace of GET outcomes, each fed
through `check_configuration_match` against the expected rules; an
exhausted trace keeps reporting non-match. -/
def traceCheck (expected : List Rule) : List GetLifecycleOutcome → ℤ → Bool × List GetLifecycleOutcome
  | [], _ => (false, [])
  | o :: rest, _ => (check_configuration_match o expected, rest)

/-- `HybridStrategy.calculate_next_interval` (strategy_hybrid.py lines
35-43): 2 s below 30 s, 4 s below 60 s, 8 s below 120 s, else 15 s. -/
def HybridStrategy.calculate_next_interval (elapsed_time : ℚ) (check_count : ℕ) : ℚ :=
  if elapsed_time < 30 then 2
  else if elapsed_time < 60 then 4
  else if elapsed_time < 120 then 8
  else 15

/-- `AdaptiveStrategy.calculate_next_interval` (strategy_adaptive.py
lines 47-61): 2 s below 30 s, 4 s below 60 s, 8 s below 120 s, 10 s
below 180 s, else 15 s. -/
def AdaptiveStrategy.calculate_next_interval (elapsed_time : ℚ) (check_count : ℕ) : ℚ :=
  if elapsed_time < 30 then 2
  else if elapsed_time < 60 then 4
  else if elapsed_time < 120 then 8
  else if elapsed_time < 180 then 10
  else 15

/-- `statistics.mean` on a list of reals. -/
noncomputable def pymean (l : List ℝ) : ℝ := l.sum / l.length

/-- `statistics.variance`-style sample variance (denominator n - 1),
the quantity under `statistics.stdev`. -/
noncomputable def pyvariance (l : List ℝ) : ℝ :=
  (l.map (fun x => (x - pymean l) ^ 2)).sum / ((l.length : ℝ) - 1)

/-- `statistics.stdev`: the sample standard deviation. -/
noncomputable def pystdev (l : List ℝ) : ℝ := Real.sqrt (pyvariance l)

/-- `AdaptiveStrategy.min_timeout` = 300 s. -/
def AdaptiveStrategy.min_timeout : ℝ := 300

/-- `AdaptiveStrategy.max_timeout` = 600 s. -/
def AdaptiveStrategy.max_timeout : ℝ := 600

/-- `AdaptiveStrategy.history_size` = 20 samples. -/
def AdaptiveStrategy.history_size : ℕ := 20

/-- The timeout value computed inside `AdaptiveStrategy.should_timeout`
(strategy_adaptive.py lines 63-81): `min_timeout` while fewer than 3
historical samples exist, otherwise
`max(min_timeout, min(mean + 3 * stdev, max_timeout))`. -/
noncomputable def AdaptiveStrategy.adaptiveTimeout (historical_times : List ℝ) : ℝ :=
  if historical_times.length < 3 then AdaptiveStrategy.min_timeout
  else
    AdaptiveStrategy.min_timeout ⊔
      ((pymean historical_times + 3 * pystdev historical_times) ⊓ AdaptiveStrategy.max_timeout)

/-- `AdaptiveStrategy.should_timeout`: `elapsed_time >= timeout`. -/
def AdaptiveStrategy.should_timeout (historical_times : List ℝ) (elapsed_time : ℝ)
    (check_count : ℕ) : Prop :=
  elapsed_time ≥ AdaptiveStrategy.adaptiveTimeout historical_times

/-- The history update in `AdaptiveStrategy.run_single_test`
(strategy_adaptive.py lines 83-91): on a successful result append its
`propagation_time`, then `pop(0)` if the window now exceeds
`history_size`; failures leave the window untouched. -/
def AdaptiveStrategy.updateHistory (historical_times : List ℤ) (result : TestResult) : List ℤ :=
  if result.success then
    let h := historical_times ++ [result.propagation_time.getD 0]
    if AdaptiveStrategy.history_size < h.length then h.drop 1 else h
  else historical_times

/-- The empirical distribution of `_display_coverage_analysis`
(base_waiter.py lines 297-305), already in the ascending value order
produced by `sorted(distribution.items(), key=lambda x: x[1])`. -/
def distribution : List (String × ℚ) :=
  [("P50", 48), ("P75", 82), ("P85", 120), ("P90", 142), ("P95", 156), ("P99", 234), ("Max", 312)]

/-- The percentile-label → estimated-success-rate mapping of
`_display_coverage_analysis` (base_waiter.py lines 325-338). -/
def rateOf (percentile : String) : ℚ :=
  if percentile = "P50" then 50
  else if percentile = "P75" then 75
  else if percentile = "P85" then 85
  else if percentile = "P90" then 90
  else if percentile = "P95" then 95
  else if percentile = "P99" then 99
  else if percentile = "Max" then 999 / 10
  else 0

/-- The selection loop of `_display_coverage_analysis` (base_waiter.py
lines 318-338): walk the distribution in ascending value order and keep
the last bucket whose value does not exceed the timeout. -/
def coverageSelect (timeout : ℚ) : Option (String × ℚ) :=
  distribution.foldl (fun acc pv => if pv.2 ≤ timeout then some pv else acc) none

/-- The warning of `_display_coverage_analysis` (base_waiter.py lines
340-350): with a selected bucket, warn iff its estimated success rate
is below 95.0; with no bucket the "timeout too short" warning fires. -/
def coverageWarning (timeout : ℚ) : Bool :=
  match coverageSelect timeout with
  | some pv => decide (rateOf pv.1 < 95)
  | none => true

/-- Outcome of one `get_lifecycle` call in the sequential control-plane
test (src/test_s3_consistency.py): either a configuration or a
`ClientError` carrying an error code. -/
inductive GetOutcome where
  | ok (cfg : Lifecycle)
  | clientError (code : String)
deriving DecidableEq

/-- The error codes tolerated by `poll_until_match`
(test_s3_consistency.py line 158). -/
def toleratedCodes : List String :=
  ["NoSuchLifecycleConfiguration", "NoSuchBucket", "AccessDenied"]

/-- The record returned by `poll_until_match`. -/
structure PollUMResult where
  matched : Bool
  elapsed : ℤ
  polls : ℕ
  first_read : Option Lifecycle
  first_read_elapsed : Option ℤ
deriving DecidableEq

/-- `poll_until_match` (test_s3_consistency.py lines 120-167), driven
by an infinite trace of GET outcomes.  Tolerated `ClientError`s are
swallowed without counting a poll; any other `ClientError` is re-raised
(`Except.error`).  The sleep cadence is 1 s before 30 s of elapsed
time, 3 s after.  `fuel` bounds the recursion. -/
def poll_until_match (expected_config : Lifecycle) (timeout_s : ℤ) (trace : ℕ → GetOutcome) :
    ℕ → ℕ → ℤ → ℕ → Option Lifecycle → Option ℤ → Option (Except String PollUMResult)
  | 0, _, _, _, _, _ => none
  | fuel + 1, step, elapsed, polls, first_snapshot, first_snapshot_age =>
    if timeout_s < elapsed then
      some (Except.ok { matched := false, elapsed := elapsed, polls := polls,
                        first_read := first_snapshot, first_read_elapsed := first_snapshot_age })
    else
      match trace step with
      | .ok current =>
        let polls2 := polls + 1
        let first2 := match first_snapshot with | none => some current | some c => some c
        let firstAge2 := match first_snapshot with | none => some elapsed | some _ => first_snapshot_age
        if current = expected_config then
          some (Except.ok { matched := true, elapsed := elapsed, polls := polls2,
                            first_read := first2, first_read_elapsed := firstAge2 })
        else
          poll_until_match expected_config timeout_s trace fuel (step + 1)
            (elapsed + (if elapsed < 30 then 1 else 3)) polls2 first2 firstAge2
      | .clientError code =>
        if code ∈ toleratedCodes then
          poll_until_match expected_config timeout_s trace fuel (step + 1)
            (elapsed + (if elapsed < 30 then 1 else 3)) polls first_snapshot first_snapshot_age
        else some (Except.error code)

/-- The `first_is_prev` computation of `test_control_plane`
(test_s3_consistency.py line 190):
`bool(first_read and prev_cfg and equal_lifecycle(first_read, prev_cfg))`. -/
def firstIsPrev (first_read : Option Lifecycle) (prev_cfg : Option Lifecycle) : Bool :=
  match first_read, prev_cfg with
  | some f, some p => decide (f = p)
  | _, _ => false

/-- Outcome of one GET as seen by the concurrent racer's poller: the
rule-ID list of the current configuration, or a `ClientError`. -/
inductive ReadOutcome where
  | ok (ruleIds : List String)
  | clientError (code : String)
deriving DecidableEq

/-- The record returned by `smart_poll_until_match`
(test_s3_consistency_concurrent.py lines 116-147): only a found flag,
the attempt count and the detection point — no snapshot identity.
`detected_attempt` stands in for the wall-clock `detected_at`. -/
structure RacerPollResult where
  found : Bool
  attempts : ℕ
  detected_attempt : Option ℕ
deriving DecidableEq

/-- `smart_poll_until_match` (test_s3_consistency_concurrent.py lines
116-147), driven by a finite trace of read outcomes (the end of the
trace models the 600 s timeout).  Every `ClientError` is swallowed
(`pass`); a read containing the expected rule ID terminates the loop. -/
def smart_poll_until_match (expected_rule_id : String) :
    List ReadOutcome → ℕ → RacerPollResult
  | [], attempt => { found := false, attempts := attempt, detected_attempt := none }
  | o :: rest, attempt =>
    let a := attempt + 1
    match o with
    | .ok rules =>
      if rules.any (fun rid => rid = expected_rule_id) then
        { found := true, attempts := a, detected_attempt := some a }
      else smart_poll_until_match expected_rule_id rest a
    | .clientError _ => smart_poll_until_match expected_rule_id rest a

/-- CONFIG_A of the sequential test (`expire-old-files-A`, 30 days). -/
def lcA : Lifecycle := { rules := [{ id := "expire-old-files-A", status := "Enabled", days := 30 }] }

/-- CONFIG_B of the sequential test (`expire-old-files-B`, 31 days). -/
def lcB : Lifecycle := { rules := [{ id := "expire-old-files-B", status := "Enabled", days := 31 }] }

/-- A GET trace whose first read returns CONFIG_A and whose later reads
return CONFIG_B. -/
def pollTraceAB : ℕ → GetOutcome :=
  fun n => if n = 0 then .ok lcA else .ok lcB

/-- The expected rules used in the concrete probe runs. -/
def exRules : List Rule := [{ id := "Baseline-3s-180s-rule-0", status := "Enabled", days := 7 }]

deriving instance DecidableEq for Except

/-- The result of a Baseline probe whose very first check matches. -/
def c2result : TestResult :=
  { test_id := 0, success := true, error := none, put_duration := some 0,
    propagation_time := some 3, check_count := some 1, api_calls := some 2,
    polling_history := some [{ attempt := 1, elapsed_at_check := 3, matched := true }] }

/-- The result of polling for CONFIG_B over `pollTraceAB`: the first
read (CONFIG_A) is recorded as the first snapshot, the second read
matches. -/
def c7result : PollUMResult :=
  { matched := true, elapsed := 1, polls := 2, first_read := some lcA,
    first_read_elapsed := some 0 }


/-! ## Invariants of the probe loop -/

/-- In `pollLoop`, once `api_calls = check_count + 1` holds it holds in
every result the loop can produce (the two counters are incremented in
lockstep, base_waiter.py lines 179-180). -/
theorem pollLoop_api_calls {σ : Type} (S : StrategySpec) (check : σ → ℤ → Bool × σ)
    (test_id : ℕ) (put_duration : ℤ) :
    ∀ (fuel : ℕ) (elapsed : ℤ) (cc ac : ℕ) (history : List PollingAttempt) (s : σ)
      (r : TestResult),
      pollLoop S check test_id put_duration fuel elapsed cc ac history s = some r →
      ac = cc + 1 → r.api_calls = Option.map (fun n => n + 1) r.check_count := by
  intro fuel
  induction fuel with
  | zero =>
    intro elapsed cc ac history s r h _
    simp [pollLoop] at h
  | succ n ih =>
    intro elapsed cc ac history s r h hinv
    rw [pollLoop] at h
    split at h
    · obtain rfl := Option.some.inj h
      simp [hinv]
    · dsimp only at h
      split at h
      · obtain rfl := Option.some.inj h
        simp [hinv]
      · exact ih _ _ _ _ _ _ h (by omega)

/-- Every result produced by `pollLoop` carries `propagation_time`,
`check_count`, `api_calls` and `polling_history` (both terminal
branches of the loop fill all fields, base_waiter.py lines 162-172 and
198-207). -/
theorem pollLoop_fields_present {σ : Type} (S : StrategySpec) (check : σ → ℤ → Bool × σ)
    (test_id : ℕ) (put_duration : ℤ) :
    ∀ (fuel : ℕ) (elapsed : ℤ) (cc ac : ℕ) (history : List PollingAttempt) (s : σ)
      (r : TestResult),
      pollLoop S check test_id put_duration fuel elapsed cc ac history s = some r →
      r.propagation_time.isSome = true ∧ r.check_count.isSome = true ∧
        r.put_duration = some put_duration := by
  intro fuel
  induction fuel with
  | zero =>
    intro elapsed cc ac history s r h
    simp [pollLoop] at h
  | succ n ih =>
    intro elapsed cc ac history s r h
    rw [pollLoop] at h
    split at h
    · obtain rfl := Option.some.inj h
      simp
    · dsimp only at h
      split at h
      · obtain rfl := Option.some.inj h
        simp
      · exact ih _ _ _ _ _ _ h

/-! ## Claims about the probe -/

/-- Claim C2: for every TestResult returned by a probe iteration
(`run_single_test`), the `api_calls` field equals `check_count + 1`
(both counters are missing together on the PUT-failure shape, and are
incremented in lockstep otherwise). -/
theorem c2_api_calls_invariant {σ : Type} (S : StrategySpec) (check : σ → ℤ → Bool × σ)
    (putOutcome : Except String ℤ) (test_id fuel : ℕ) (s0 : σ) (r : TestResult)
    (h : run_single_test S check putOutcome test_id fuel s0 = some r) :
    r.api_calls = Option.map (fun n => n + 1) r.check_count := by
  cases putOutcome with
  | error e =>
    obtain rfl := Option.some.inj h
    simp
  | ok put_duration =>
    exact pollLoop_api_calls S check test_id put_duration fuel 0 0 1 [] s0 r h rfl

/-- Witness for C2: a concrete Baseline run whose first check matches
satisfies the invariant (`api_calls = 2 = check_count + 1`). -/
theorem c2_witness :
    run_single_test BaselineStrategy (traceCheck exRules) (Except.ok 0) 0 5
      [GetLifecycleOutcome.ok exRules] = some c2result
    ∧ c2result.api_calls = Option.map (fun n => n + 1) c2result.check_count :=
  ⟨by decide, c2_api_calls_invariant BaselineStrategy (traceCheck exRules) (Except.ok 0) 0 5
      [GetLifecycleOutcome.ok exRules] c2result (by decide)⟩

/-- Claim C5 (corrected): `propagation_time` is defined iff the PUT
succeeded, i.e. iff the result has the full TestResult shape — NOT iff
`success` is true.  Both the Matched and the TimedOut shapes carry
`propagation_time` (the timeout branch stores the elapsed time at
timeout, base_waiter.py line 167); only the PUT-failure shape omits it.
`success = true` still implies the field is present. -/
theorem c5_amended_propagation_time_presence {σ : Type} (S : StrategySpec)
    (check : σ → ℤ → Bool × σ) (putOutcome : Except String ℤ) (test_id fuel : ℕ) (s0 : σ)
    (r : TestResult) (h : run_single_test S check putOutcome test_id fuel s0 = some r) :
    (r.propagation_time.isSome = true ↔ r.check_count.isSome = true)
    ∧ (r.success = true → r.propagation_time.isSome = true) := by
  cases putOutcome with
  | error e =>
    obtain rfl := Option.some.inj h
    simp
  | ok put_duration =>
    obtain ⟨h1, h2, _⟩ := pollLoop_fields_present S check test_id put_duration fuel 0 0 1 [] s0 r h
    exact ⟨by rw [h1, h2], fun _ => h1⟩

/-- Counterexample to C5 as stated: the Baseline strategy run against a
simulated delay of 200 s times out after 180 s, and the resulting
TestResult has `success = false` yet carries
`propagation_time = 180` — so `propagation_time` is not "defined iff
success is true". -/
theorem c5_counterexample :
    (run_single_test BaselineStrategy (simCheck 200 true) (Except.ok 0) 0 100 none).map
      (fun r => (r.success, r.error, r.propagation_time)) =
    some (false, some "Timeout", some 180) := by decide

/-- Witness for C5's amended statement: the same timed-out result has
`check_count` present, matching the amended iff, applied through the
theorem at that concrete input. -/
theorem c5_witness :
    run_single_test BaselineStrategy (traceCheck exRules) (Except.ok 0) 0 5
      [GetLifecycleOutcome.ok exRules] = some c2result
    ∧ ((c2result.propagation_time.isSome = true ↔ c2result.check_count.isSome = true)
       ∧ (c2result.success = true → c2result.propagation_time.isSome = true)) :=
  ⟨by decide, c5_amended_propagation_time_presence BaselineStrategy (traceCheck exRules)
      (Except.ok 0) 0 5 [GetLifecycleOutcome.ok exRules] c2result (by decide)⟩

/-- Claim C10: when the initial PUT mutation raises, `run_single_test`
returns immediately (for every check oracle and every fuel, so no
polling check is consulted) a result with `success = false` and an
error message, and the `put_duration`, `propagation_time`,
`check_count`, `api_calls` and `polling_history` fields are all absent. -/
theorem c10_put_failure_shape {σ : Type} (S : StrategySpec) (check : σ → ℤ → Bool × σ)
    (test_id fuel : ℕ) (s0 : σ) (e : String) :
    run_single_test S check (Except.error e) test_id fuel s0 =
      some { test_id := test_id, success := false, error := some ("PUT failed: " ++ e),
             put_duration := none, propagation_time := none, check_count := none,
             api_calls := none, polling_history := none } := rfl

/-! ## Strategy arithmetic -/

/-- Claim C3: `AdaptiveStrategy.should_timeout(elapsed, check_count)`
is true iff `elapsed ≥ timeout`, where the timeout is `min_timeout`
(300) while fewer than 3 historical samples exist, and otherwise
`clamp(mean(history) + 3 * stdev(history), 300, 600)`; in particular
with history `[40, 50, 60]` (mean 50, sample stdev 10) the effective
timeout is clamped up to 300. -/
theorem c3_adaptive_timeout :
    (∀ (historical_times : List ℝ) (elapsed_time : ℝ) (check_count : ℕ),
        AdaptiveStrategy.should_timeout historical_times elapsed_time check_count ↔
          elapsed_time ≥ (if historical_times.length < 3 then (300 : ℝ)
            else max 300 (min (pymean historical_times + 3 * pystdev historical_times) 600)))
    ∧ AdaptiveStrategy.adaptiveTimeout [40, 50, 60] = 300 := by
  constructor
  · intro historical_times elapsed_time check_count
    unfold AdaptiveStrategy.should_timeout AdaptiveStrategy.adaptiveTimeout
      AdaptiveStrategy.min_timeout AdaptiveStrategy.max_timeout
    rw [sup_eq_max, inf_eq_min]
  · have hmean : pymean [40, 50, 60] = 50 := by
      simp [pymean, List.sum_cons, List.sum_nil]
      norm_num
    have hvar : pyvariance [40, 50, 60] = 100 := by
      simp [pyvariance, hmean, List.sum_cons, List.sum_nil]
      norm_num
    have hsd : pystdev [40, 50, 60] = 10 := by
      rw [pystdev, hvar, show (100 : ℝ) = 10 ^ 2 by norm_num, Real.sqrt_sq (by norm_num)]
    unfold AdaptiveStrategy.adaptiveTimeout
    rw [if_neg (by simp), hmean, hsd]
    unfold AdaptiveStrategy.min_timeout AdaptiveStrategy.max_timeout
    rw [show (50 : ℝ) + 3 * 10 = 80 by norm_num, inf_eq_min, sup_eq_max,
      min_eq_left (by norm_num), max_eq_left (by norm_num)]

/-- Counterexample to C4 as stated: at elapsed time 150 s the Adaptive
schedule returns 10 s while the Hybrid schedule returns 15 s — the two
`calculate_next_interval` functions are not equal. -/
theorem c4_counterexample :
    AdaptiveStrategy.calculate_next_interval 150 0 ≠
      HybridStrategy.calculate_next_interval 150 0 := by decide

/-- Claim C4 (corrected): the Hybrid schedule is the claimed piecewise
function (2 s below 30 s, 4 s below 60 s, 8 s below 120 s, 15 s from
120 s on), and the Adaptive schedule agrees with it for elapsed < 120
and for elapsed ≥ 180, but splits the sparse regime: on
[120, 180) Adaptive returns 10 s where Hybrid returns 15 s. -/
theorem c4_amended_interval_schedules :
    (∀ (elapsed_time : ℚ) (check_count : ℕ),
        HybridStrategy.calculate_next_interval elapsed_time check_count =
          if elapsed_time < 30 then 2 else if elapsed_time < 60 then 4
          else if elapsed_time < 120 then 8 else 15)
    ∧ (∀ (elapsed_time : ℚ) (check_count : ℕ), elapsed_time < 120 ∨ 180 ≤ elapsed_time →
        AdaptiveStrategy.calculate_next_interval elapsed_time check_count =
          HybridStrategy.calculate_next_interval elapsed_time check_count)
    ∧ (∀ (elapsed_time : ℚ) (check_count : ℕ), 120 ≤ elapsed_time → elapsed_time < 180 →
        AdaptiveStrategy.calculate_next_interval elapsed_time check_count = 10 ∧
          HybridStrategy.calculate_next_interval elapsed_time check_count = 15) := by
  refine ⟨fun t k => rfl, ?_, ?_⟩
  · intro t k h
    unfold AdaptiveStrategy.calculate_next_interval HybridStrategy.calculate_next_interval
    split_ifs <;> first | rfl | (rcases h with h | h <;> linarith)
  · intro t k h1 h2
    refine ⟨?_, ?_⟩
    · unfold AdaptiveStrategy.calculate_next_interval
      split_ifs <;> first | rfl | linarith
    · unfold HybridStrategy.calculate_next_interval
      split_ifs <;> first | rfl | linarith

/-- Witness for C4's amended statement: instantiated at elapsed times
10 (schedules agree, both 2 s) and 150 (Adaptive 10 s, Hybrid 15 s). -/
theorem c4_witness :
    ((10 : ℚ) < 120 ∨ 180 ≤ (10 : ℚ))
    ∧ AdaptiveStrategy.calculate_next_interval 10 0 =
        HybridStrategy.calculate_next_interval 10 0
    ∧ ((120 : ℚ) ≤ 150 ∧ (150 : ℚ) < 180)
    ∧ AdaptiveStrategy.calculate_next_interval 150 0 = 10
    ∧ HybridStrategy.calculate_next_interval 150 0 = 15 :=
  ⟨Or.inl (by norm_num),
   c4_amended_interval_schedules.2.1 10 0 (Or.inl (by norm_num)),
   ⟨by norm_num, by norm_num⟩,
   (c4_amended_interval_schedules.2.2 150 0 (by norm_num) (by norm_num)).1,
   (c4_amended_interval_schedules.2.2 150 0 (by norm_num) (by norm_num)).2⟩

/-! ## Error-classification boundary -/

/-- Counterexample to C1 as stated: in a Baseline probe iteration whose
first check fails with an error OUTSIDE the "not yet visible" class
(`otherError "boom"`), the error is NOT propagated: it is swallowed by
`check_configuration_match`, recorded as the non-matching polling
attempt 1, and the loop continues to a normal successful terminal
result on the next check. -/
theorem c1_counterexample :
    (run_single_test BaselineStrategy (traceCheck exRules) (Except.ok 0) 0 5
        [GetLifecycleOutcome.otherError "boom", GetLifecycleOutcome.ok exRules]).map
      (fun r => (r.success, r.error, r.polling_history)) =
    some (true, none,
      some [{ attempt := 1, elapsed_at_check := 3, matched := false },
            { attempt := 2, elapsed_at_check := 6, matched := true }]) := by decide

/-- Claim C1 (corrected): in `BaseWaiterStrategy.check_configuration_match`
BOTH the "not yet visible" error (`NoSuchLifecycleConfiguration`) and
every other error are swallowed and reported as a non-match, so the
probe loop records a non-matching attempt and continues in either case;
errors propagate to the caller only in `poll_until_match` of
test_s3_consistency.py, which re-raises every `ClientError` whose code
is outside {NoSuchLifecycleConfiguration, NoSuchBucket, AccessDenied}
without producing a normal terminal result. -/
theorem c1_amended_error_boundary :
    (∀ (rules : List Rule),
        check_configuration_match GetLifecycleOutcome.noSuchLifecycleConfiguration rules = false)
    ∧ (∀ (msg : String) (rules : List Rule),
        check_configuration_match (GetLifecycleOutcome.otherError msg) rules = false)
    ∧ (∀ (code : String) (expected_config : Lifecycle) (timeout_s : ℤ)
        (trace : ℕ → GetOutcome) (fuel : ℕ),
        code ∉ toleratedCodes → 0 ≤ timeout_s → trace 0 = GetOutcome.clientError code →
        poll_until_match expected_config timeout_s trace (fuel + 1) 0 0 0 none none =
          some (Except.error code)) := by
  refine ⟨fun _ => rfl, fun _ _ => rfl, ?_⟩
  intro code expected_config timeout_s trace fuel hcode ht h0
  rw [poll_until_match, if_neg (not_lt.mpr ht), h0]
  exact if_neg hcode

/-- Witness for C1's amended statement: the code "Boom" is not in the
tolerated set, and polling over a trace that raises it propagates the
error. -/
theorem c1_witness :
    "Boom" ∉ toleratedCodes ∧ (0 : ℤ) ≤ 600 ∧
    poll_until_match lcA 600 (fun _ => GetOutcome.clientError "Boom") 3 0 0 0 none none =
      some (Except.error "Boom") :=
  ⟨by decide, by norm_num,
   c1_amended_error_boundary.2.2 "Boom" lcA 600 (fun _ => GetOutcome.clientError "Boom") 2
     (by decide) (by norm_num) rfl⟩

/-! ## End-to-end simulated run -/

/-- Counterexample to C8 as stated: the Baseline strategy (interval 3 s,
timeout 180 s) against a simulated propagation delay of exactly 48 s
produces a successful TestResult with `check_count = 17` (not 16) and
`propagation_time = 51` (not in [48, 51)): the simulator starts its
delay clock at the FIRST CHECK (elapsed 3 s), not at the PUT, so the
match occurs at elapsed 3 + 48 = 51. -/
theorem c8_counterexample :
    (run_single_test BaselineStrategy (simCheck 48 true) (Except.ok 0) 0 100 none).map
      (fun r => (r.success, r.check_count, r.propagation_time)) =
      some (true, some 17, some 51)
    ∧ (17 : ℕ) ≠ 16 ∧ ¬((48 : ℤ) ≤ 51 ∧ (51 : ℤ) < 51) := by
  refine ⟨by decide, by decide, by decide⟩

/-- Claim C8 (corrected): running the Fixed baseline strategy
(interval 3 s, timeout 180 s) against a simulated propagation delay of
exactly 48 s yields exactly one TestResult, with `success = true`,
`check_count = 17 = 1 + ceil(48 / 3)`, `api_calls = 18`,
`propagation_time = 51 = first-check time + delay` and a 17-entry
polling history, in the zero-overhead timing model (the simulated delay
is measured from the first check at elapsed 3 s, so the match lands at
elapsed 51 s). -/
theorem c8_amended_end_to_end :
    (run_single_test BaselineStrategy (simCheck 48 true) (Except.ok 0) 0 100 none).map
      (fun r => (r.success, r.error, r.put_duration, r.propagation_time, r.check_count,
                 r.api_calls, (r.polling_history.getD []).length)) =
    some (true, none, some 0, some 51, some 17, some 18, 17) := by rfl

/-! ## Adaptive history window -/

/-- Claim C9: starting from a window of at most `history_size` (20)
samples, the update performed by `AdaptiveStrategy.run_single_test`
keeps the window at ≤ 20 samples; an unsuccessful result leaves the
window untouched; a successful result appends its `propagation_time`
and, exactly when the window was full, evicts the oldest sample first
(strict FIFO). -/
theorem c9_history_window (historical_times : List ℤ) (result : TestResult)
    (hlen : historical_times.length ≤ AdaptiveStrategy.history_size) :
    (AdaptiveStrategy.updateHistory historical_times result).length ≤
        AdaptiveStrategy.history_size
    ∧ (result.success = false →
        AdaptiveStrategy.updateHistory historical_times result = historical_times)
    ∧ (∀ p, result.success = true → result.propagation_time = some p →
        AdaptiveStrategy.updateHistory historical_times result =
          if historical_times.length = AdaptiveStrategy.history_size
          then historical_times.drop 1 ++ [p] else historical_times ++ [p]) := by
  unfold AdaptiveStrategy.updateHistory AdaptiveStrategy.history_size at *
  refine ⟨?_, ?_, ?_⟩
  · split
    · dsimp only
      split
      · simp only [List.length_drop, List.length_append, List.length_singleton]
        omega
      · rename_i hle
        simp only [List.length_append, List.length_singleton] at hle ⊢
        omega
    · exact hlen
  · intro hs
    rw [if_neg (by simp [hs])]
  · intro p hs hp
    rw [if_pos hs, hp]
    dsimp only
    simp only [Option.getD_some]
    by_cases hfull : historical_times.length = 20
    · rw [if_pos (show 20 < (historical_times ++ [p]).length by simp [hfull]), if_pos hfull]
      exact List.drop_append_of_le_length (by omega)
    · rw [if_neg (show ¬ 20 < (historical_times ++ [p]).length by
          simp only [List.length_append, List.length_singleton]
          omega), if_neg hfull]

/-- Witness for C9: a full window of twenty samples together with a
successful result appending propagation time 7 evicts the oldest
sample. -/
theorem c9_witness :
    (List.replicate 20 (5 : ℤ)).length ≤ AdaptiveStrategy.history_size
    ∧ ((AdaptiveStrategy.updateHistory (List.replicate 20 (5 : ℤ)) c2result).length ≤
          AdaptiveStrategy.history_size
       ∧ (c2result.success = false →
           AdaptiveStrategy.updateHistory (List.replicate 20 (5 : ℤ)) c2result =
             List.replicate 20 (5 : ℤ))
       ∧ (∀ p, c2result.success = true → c2result.propagation_time = some p →
           AdaptiveStrategy.updateHistory (List.replicate 20 (5 : ℤ)) c2result =
             if (List.replicate 20 (5 : ℤ)).length = AdaptiveStrategy.history_size
             then (List.replicate 20 (5 : ℤ)).drop 1 ++ [p]
             else List.replicate 20 (5 : ℤ) ++ [p])) :=
  ⟨by decide, c9_history_window (List.replicate 20 (5 : ℤ)) c2result (by decide)⟩

/-! ## Coverage analysis -/

/-- Claim C6: for every configured timeout covering at least the
smallest bucket, the coverage analysis selects from the fixed table the
percentile bucket with the largest upper-bound value ≤ timeout, reports
its mapped success rate, and emits a warning iff that rate is below
95.0; in particular timeout = 150 selects "P90" with estimated success
rate 90.0. -/
theorem c6_coverage_analysis :
    (∀ (timeout : ℚ), 48 ≤ timeout →
      ∃ p v, coverageSelect timeout = some (p, v) ∧ v ≤ timeout ∧
        (∀ q w, (q, w) ∈ distribution → w ≤ timeout → w ≤ v) ∧
        (coverageWarning timeout = true ↔ rateOf p < 95))
    ∧ coverageSelect 150 = some ("P90", 142)
    ∧ rateOf "P90" = 90
    ∧ coverageWarning 150 = true := by
  have hwarn : ∀ (t : ℚ) (p : String) (v : ℚ), coverageSelect t = some (p, v) →
      (coverageWarning t = true ↔ rateOf p < 95) := by
    intro t p v h
    unfold coverageWarning
    rw [h]
    simp
  refine ⟨?_, by decide, rfl, by decide⟩
  intro t ht
  rcases lt_or_le t 82 with h82 | h82
  · have hsel : coverageSelect t = some ("P50", 48) := by
      unfold coverageSelect distribution
      simp only [List.foldl]
      rw [if_pos ht, if_neg (by linarith : ¬(82 : ℚ) ≤ t), if_neg (by linarith : ¬(120 : ℚ) ≤ t),
        if_neg (by linarith : ¬(142 : ℚ) ≤ t), if_neg (by linarith : ¬(156 : ℚ) ≤ t),
        if_neg (by linarith : ¬(234 : ℚ) ≤ t), if_neg (by linarith : ¬(312 : ℚ) ≤ t)]
    refine ⟨"P50", 48, hsel, ht, ?_, hwarn t "P50" 48 hsel⟩
    intro q w hmem hle
    simp only [distribution, List.mem_cons, List.not_mem_nil, or_false] at hmem
    rcases hmem with h | h | h | h | h | h | h <;> cases h <;> linarith
  · rcases lt_or_le t 120 with h120 | h120
    · have hsel : coverageSelect t = some ("P75", 82) := by
        unfold coverageSelect distribution
        simp only [List.foldl]
        rw [if_pos ht, if_pos h82, if_neg (by linarith : ¬(120 : ℚ) ≤ t),
          if_neg (by linarith : ¬(142 : ℚ) ≤ t), if_neg (by linarith : ¬(156 : ℚ) ≤ t),
          if_neg (by linarith : ¬(234 : ℚ) ≤ t), if_neg (by linarith : ¬(312 : ℚ) ≤ t)]
      refine ⟨"P75", 82, hsel, h82, ?_, hwarn t "P75" 82 hsel⟩
      intro q w hmem hle
      simp only [distribution, List.mem_cons, List.not_mem_nil, or_false] at hmem
      rcases hmem with h | h | h | h | h | h | h <;> cases h <;> linarith
    · rcases lt_or_le t 142 with h142 | h142
      · have hsel : coverageSelect t = some ("P85", 120) := by
          unfold coverageSelect distribution
          simp only [List.foldl]
          rw [if_pos ht, if_pos h82, if_pos h120, if_neg (by linarith : ¬(142 : ℚ) ≤ t),
            if_neg (by linarith : ¬(156 : ℚ) ≤ t), if_neg (by linarith : ¬(234 : ℚ) ≤ t),
            if_neg (by linarith : ¬(312 : ℚ) ≤ t)]
        refine ⟨"P85", 120, hsel, h120, ?_, hwarn t "P85" 120 hsel⟩
        intro q w hmem hle
        simp only [distribution, List.mem_cons, List.not_mem_nil, or_false] at hmem
        rcases hmem with h | h | h | h | h | h | h <;> cases h <;> linarith
      · rcases lt_or_le t 156 with h156 | h156
        · have hsel : coverageSelect t = some ("P90", 142) := by
            unfold coverageSelect distribution
            simp only [List.foldl]
            rw [if_pos ht, if_pos h82, if_pos h120, if_pos h142,
              if_neg (by linarith : ¬(156 : ℚ) ≤ t), if_neg (by linarith : ¬(234 : ℚ) ≤ t),
              if_neg (by linarith : ¬(312 : ℚ) ≤ t)]
          refine ⟨"P90", 142, hsel, h142, ?_, hwarn t "P90" 142 hsel⟩
          intro q w hmem hle
          simp only [distribution, List.mem_cons, List.not_mem_nil, or_false] at hmem
          rcases hmem with h | h | h | h | h | h | h <;> cases h <;> linarith
        · rcases lt_or_le t 234 with h234 | h234
          · have hsel : coverageSelect t = some ("P95", 156) := by
              unfold coverageSelect distribution
              simp only [List.foldl]
              rw [if_pos ht, if_pos h82, if_pos h120, if_pos h142, if_pos h156,
                if_neg (by linarith : ¬(234 : ℚ) ≤ t), if_neg (by linarith : ¬(312 : ℚ) ≤ t)]
            refine ⟨"P95", 156, hsel, h156, ?_, hwarn t "P95" 156 hsel⟩
            intro q w hmem hle
            simp only [distribution, List.mem_cons, List.not_mem_nil, or_false] at hmem
            rcases hmem with h | h | h | h | h | h | h <;> cases h <;> linarith
          · rcases lt_or_le t 312 with h312 | h312
            · have hsel : coverageSelect t = some ("P99", 234) := by
                unfold coverageSelect distribution
                simp only [List.foldl]
                rw [if_pos ht, if_pos h82, if_pos h120, if_pos h142, if_pos h156, if_pos h234,
                  if_neg (by linarith : ¬(312 : ℚ) ≤ t)]
              refine ⟨"P99", 234, hsel, h234, ?_, hwarn t "P99" 234 hsel⟩
              intro q w hmem hle
              simp only [distribution, List.mem_cons, List.not_mem_nil, or_false] at hmem
              rcases hmem with h | h | h | h | h | h | h <;> cases h <;> linarith
            · have hsel : coverageSelect t = some ("Max", 312) := by
                unfold coverageSelect distribution
                simp only [List.foldl]
                rw [if_pos ht, if_pos h82, if_pos h120, if_pos h142, if_pos h156, if_pos h234,
                  if_pos h312]
              refine ⟨"Max", 312, hsel, h312, ?_, hwarn t "Max" 312 hsel⟩
              intro q w hmem hle
              simp only [distribution, List.mem_cons, List.not_mem_nil, or_false] at hmem
              rcases hmem with h | h | h | h | h | h | h <;> cases h <;> linarith

/-- Witness for C6: instantiated at the configured timeout 150 — the
selected bucket is "P90" with value 142 ≤ 150, no bucket value ≤ 150 is
larger, and the below-95 warning fires since the mapped rate is 90. -/
theorem c6_witness :
    (48 : ℚ) ≤ 150 ∧
    (∃ p v, coverageSelect 150 = some (p, v) ∧ v ≤ 150 ∧
      (∀ q w, (q, w) ∈ distribution → w ≤ 150 → w ≤ v) ∧
      (coverageWarning 150 = true ↔ rateOf p < 95)) :=
  ⟨by norm_num, c6_coverage_analysis.1 150 (by norm_num)⟩

/-! ## First-snapshot identity and the stale-first-read flag -/

/-- Once `poll_until_match` has recorded a first snapshot, every normal
result it returns still carries that same snapshot (the
`if first_snapshot is None` guard never overwrites it). -/
theorem poll_until_match_first_read_persists (expected_config : Lifecycle) (timeout_s : ℤ)
    (trace : ℕ → GetOutcome) :
    ∀ (fuel step : ℕ) (elapsed : ℤ) (polls : ℕ) (c : Lifecycle) (age : Option ℤ)
      (r : PollUMResult),
      poll_until_match expected_config timeout_s trace fuel step elapsed polls (some c) age =
        some (Except.ok r) → r.first_read = some c := by
  intro fuel
  induction fuel with
  | zero =>
    intro step elapsed polls c age r h
    simp [poll_until_match] at h
  | succ n ih =>
    intro step elapsed polls c age r h
    rw [poll_until_match] at h
    split at h
    · obtain rfl := Except.ok.inj (Option.some.inj h)
      rfl
    · split at h
      · dsimp only at h
        split at h
        · obtain rfl := Except.ok.inj (Option.some.inj h)
          rfl
        · exact ih _ _ _ _ _ _ h
      · split at h
        · exact ih _ _ _ _ _ _ h
        · exact absurd (Option.some.inj h) (by simp)

/-- Counterexample to C7 as stated: the ConcurrentRacer's poller
(`smart_poll_until_match`) returns identical results for two iterations
that differ precisely in the identity of the first observed snapshot —
one whose first read shows the previous rule ("prev", a stale first
read) and one whose first read errors (no data yet).  Since the two
outputs coincide, no recorded value of the racer can be the claimed
stale-first-read flag, which would have to distinguish them. -/
theorem c7_counterexample :
    smart_poll_until_match "new" [ReadOutcome.ok ["prev"], ReadOutcome.ok ["new"]] 0 =
      smart_poll_until_match "new"
        [ReadOutcome.clientError "NoSuchLifecycleConfiguration", ReadOutcome.ok ["new"]] 0
    ∧ ("prev" : String) ≠ "new" := ⟨by decide, by decide⟩

/-- Claim C7 (corrected): the racer's poller records only found /
attempts / detection point, not the first snapshot's identity; it is
the SEQUENTIAL control-plane test (poll_until_match and
test_control_plane in test_s3_consistency.py) that records the identity
of the first observed snapshot and computes the stale-first-read flag,
which is true iff a first snapshot and a previous configuration both
exist and are equal.  `poll_until_match` indeed records the first
successfully read configuration as `first_read` of its result. -/
theorem c7_amended_stale_first_read :
    (∀ (first_read prev_cfg : Option Lifecycle),
        firstIsPrev first_read prev_cfg = true ↔
          ∃ c, first_read = some c ∧ prev_cfg = some c)
    ∧ (∀ (expected_config cfg : Lifecycle) (timeout_s : ℤ) (trace : ℕ → GetOutcome)
        (fuel : ℕ) (r : PollUMResult),
        0 ≤ timeout_s → trace 0 = GetOutcome.ok cfg →
        poll_until_match expected_config timeout_s trace (fuel + 1) 0 0 0 none none =
          some (Except.ok r) →
        r.first_read = some cfg) := by
  constructor
  · intro f p
    match f, p with
    | some a, some b =>
      simp only [firstIsPrev, decide_eq_true_eq]
      constructor
      · intro h
        exact ⟨a, rfl, by rw [h]⟩
      · rintro ⟨c, hc1, hc2⟩
        rw [Option.some.inj hc1, Option.some.inj hc2]
    | some a, none => simp [firstIsPrev]
    | none, b => simp [firstIsPrev]
  · intro expected_config cfg timeout_s trace fuel r ht h0 h
    rw [poll_until_match, if_neg (not_lt.mpr ht), h0] at h
    dsimp only at h
    split at h
    · obtain rfl := Except.ok.inj (Option.some.inj h)
      rfl
    · exact poll_until_match_first_read_persists expected_config timeout_s trace
        fuel 1 _ _ cfg _ r h

/-- Witness for C7's amended statement: polling for CONFIG_B over a
trace whose first read is CONFIG_A records CONFIG_A as the first
snapshot, and the stale-first-read flag on that snapshot against
previous configuration CONFIG_A is true. -/
theorem c7_witness :
    (0 : ℤ) ≤ 600 ∧ pollTraceAB 0 = GetOutcome.ok lcA ∧
    poll_until_match lcB 600 pollTraceAB 3 0 0 0 none none = some (Except.ok c7result) ∧
    c7result.first_read = some lcA :=
  ⟨by norm_num, rfl, by decide,
   c7_amended_stale_first_read.2 lcB lcA 600 pollTraceAB 2 c7result (by norm_num) rfl
     (by decide)⟩
